import Mathlib

/-!
Verification development for the chime-backend session registry
(`src/index.js`, with the `src/server.js` variant of the
start-transcription handler embedded separately).

The JavaScript program keeps a single mutable object `meetings` mapping
meeting ids to session records, mutated by Express handlers.  We embed it
shallowly: the registry is an association list keyed by strings, each
handler becomes a pure function from the registry (plus the remote
gateway's response for the one remote call the handler makes, passed as
an explicit `Except` argument) to the new registry and the HTTP-level
outcome.  Handlers that invoke the remote gateway also return how many
times they invoked it, so call-count properties can be stated.

JavaScript-specific semantics that matter to the claims are embedded
explicitly: `undefined` values are `Option.none`, object-key coercion of
`undefined` to the string "undefined" is `jsKey`, the truthiness test
`!meetingId` is the `none`/empty-string check, and the numeric coercion
of an ISO-8601 date string (as produced by `new Date().toISOString()`)
under subtraction is NaN, modelled by `JSTime`/`JSNum`.
-/

namespace ChimeBackend

/-- Result of `new Date().toISOString()` (a non-numeric string denoting
instant `ms`), or a plain millisecond number.  `src/index.js` line 145
stores the ISO string form in `creationTime`. -/
inductive JSTime where
  | isoString (ms : Nat)
  | numberMs (ms : Nat)
deriving DecidableEq

/-- A JavaScript number that may be NaN. -/
inductive JSNum where
  | nan
  | val (n : Int)
deriving DecidableEq

/-- JavaScript ToNumber applied to a stored time value: an ISO-8601 date
string is not a numeric literal, so ToNumber yields NaN. -/
def jsToNumber : JSTime → JSNum
  | JSTime.isoString _ => JSNum.nan
  | JSTime.numberMs n => JSNum.val n

/-- `now - t` as JavaScript evaluates `Date.now() - creationTime`
(`src/index.js` line 490): the right operand is coerced with ToNumber. -/
def jsSubTime (now : Nat) (t : JSTime) : JSNum :=
  match jsToNumber t with
  | JSNum.nan => JSNum.nan
  | JSNum.val n => JSNum.val ((now : Int) - n)

/-- JavaScript `>` against a plain number: any comparison with NaN is
false. -/
def jsGtNum : JSNum → Nat → Bool
  | JSNum.nan, _ => false
  | JSNum.val n, m => decide ((m : Int) < n)

/-- JavaScript object-property key for a possibly-`undefined` user id:
`obj[undefined]` reads/writes the key "undefined". -/
def jsKey : Option String → String
  | some s => s
  | none => "undefined"

/-- JavaScript `a || b` on possibly-`undefined` strings (empty string is
falsy), as in `userName || userId` (`src/index.js` line 101). -/
def jsOrS : Option String → Option String → Option String
  | some s, b => if s = "" then b else some s
  | none, b => b

/-- JavaScript truthiness failure of `meetingId` in the guards
`!meetingId || !meetings[meetingId]`: `undefined` or the empty string. -/
def jsFalsyS : Option String → Bool
  | none => true
  | some s => s = ""

/-- Error object thrown by a failed remote gateway call. -/
structure GatewayErr where
  name : String
  message : String
deriving DecidableEq

/-- Does `hay` start with `needle`? (helper for the substring test). -/
def startsWithChars : List Char → List Char → Bool
  | _, [] => true
  | [], _ :: _ => false
  | c :: cs, d :: ds => c == d && startsWithChars cs ds

def containsChars : List Char → List Char → Bool
  | [], needle => needle.isEmpty
  | c :: rest, needle => startsWithChars (c :: rest) needle || containsChars rest needle

/-- JavaScript `hay.includes(needle)`. -/
def containsSub (hay needle : String) : Bool :=
  containsChars hay.data needle.data

/-- Authorization-failure test of `src/index.js` lines 204-206:
`error.name === 'AccessDeniedException' || error.message.includes('Access
Denied') || error.message.includes('not authorized')`. -/

def isAuthError (e : GatewayErr) : Bool :=
  e.name == "AccessDeniedException"
    || containsSub e.message "Access Denied"
    || containsSub e.message "not authorized"

/-- The remote provider's Meeting object, as far as the registry reads
it: `MeetingId` and an optional `ExternalMeetingId`. -/
structure MeetingDesc where
  meetingId : String
  externalMeetingId : Option String
deriving DecidableEq

/-- The remote provider's Attendee object (opaque credential data,
stored and replayed verbatim). -/
structure AttendeeDesc where
  attendeeId : String
  joinToken : String
deriving DecidableEq

/-- Which transcription path marked the session enabled:
`transcriptionMethod` is set to 'aws' on a provider-accepted start and to
'alternative' on the degraded paths (`src/index.js` lines 196, 212,
391). -/
inductive TMethod where
  | aws
  | alternative
deriving DecidableEq

/-- Stored attendee record (`src/index.js` lines 99-104). -/
structure Attendee where
  userId : Option String
  userName : Option String
  joinTime : JSTime
  attendeeInfo : AttendeeDesc
deriving DecidableEq

/-- Session record stored in `meetings[meetingId]` (`src/index.js` lines
142-149).  `transcriptionMethod` is absent (`none`) until a
transcription start sets it. -/
structure Session where
  meetingId : String
  meeting : MeetingDesc
  creationTime : JSTime
  attendees : List (String × Attendee)
  transcriptionEnabled : Bool
  transcriptionMethod : Option TMethod
  creatorId : Option String
deriving DecidableEq

/-- The global `meetings` object: an association list keyed by meeting
id (unique keys by construction). -/
abbrev Registry : Type := List (String × Session)

/-- Property read `m[key]` on a string-keyed object. -/
def lookupL {α : Type} : List (String × α) → String → Option α
  | [], _ => none
  | (k, v) :: rest, key => if k = key then some v else lookupL rest key

/-- Property write `m[key] = v`: replace if present, append if absent. -/
def insertL {α : Type} : List (String × α) → String → α → List (String × α)
  | [], key, v => [(key, v)]
  | (k, w) :: rest, key, v =>
    if k = key then (key, v) :: rest else (k, w) :: insertL rest key v

/-- `delete m[key]`. -/
def eraseL {α : Type} : List (String × α) → String → List (String × α)
  | [], _ => []
  | (k, w) :: rest, key =>
    if k = key then eraseL rest key else (k, w) :: eraseL rest key

/-- The safe copy of the session sent back to joining clients
(`src/index.js` lines 75-80 and 107-112). -/
structure MeetingInfo where
  meeting : MeetingDesc
  meetingId : String
  creationTime : JSTime
  transcriptionEnabled : Bool
deriving DecidableEq

def mkMeetingInfo (s : Session) : MeetingInfo :=
  { meeting := s.meeting
    meetingId := s.meetingId
    creationTime := s.creationTime
    transcriptionEnabled := s.transcriptionEnabled }

/-- Outcome of `POST /create-meeting`. -/
inductive CreateResult where
  | ok (meetingId : String)
  | gatewayError (message : String)
deriving DecidableEq

/-- `POST /create-meeting` (`src/index.js` lines 127-157).  `gw` is the
response of the remote `CreateMeeting` call; `now` the current instant
used by `new Date().toISOString()`. -/
def createMeeting (reg : Registry) (userId : Option String) (now : Nat)
    (gw : Except GatewayErr MeetingDesc) : Registry × CreateResult :=
  match gw with
  | Except.error e => (reg, CreateResult.gatewayError ("Error al crear reunión: " ++ e.message))
  | Except.ok m =>
    (insertL reg m.meetingId
      { meetingId := m.meetingId
        meeting := m
        creationTime := JSTime.isoString now
        attendees := []
        transcriptionEnabled := false
        transcriptionMethod := none
        creatorId := userId },
     CreateResult.ok m.meetingId)

/-- Outcome of `POST /join-meeting`. -/
inductive JoinResult where
  | notFound
  | ok (meetingInfo : MeetingInfo) (attendeeInfo : AttendeeDesc) (isCreator : Bool)
  | gatewayError (message : String)
deriving DecidableEq

/-- `POST /join-meeting` (`src/index.js` lines 64-124).  Returns the new
registry, the response, and the number of remote `CreateAttendee` calls
made (`gw` is that call's response when it happens). -/
def joinMeeting (reg : Registry) (meetingId userId userName : Option String)
    (now : Nat) (gw : Except GatewayErr AttendeeDesc) :
    Registry × JoinResult × Nat :=
  if jsFalsyS meetingId then (reg, JoinResult.notFound, 0) else
  match lookupL reg (jsKey meetingId) with
  | none => (reg, JoinResult.notFound, 0)
  | some s =>
    match lookupL s.attendees (jsKey userId) with
    | some a =>
      (reg, JoinResult.ok (mkMeetingInfo s) a.attendeeInfo (userId == s.creatorId), 0)
    | none =>
      match gw with
      | Except.error e =>
        (reg, JoinResult.gatewayError ("Error al unirse a la reunión: " ++ e.message), 1)
      | Except.ok att =>
        let a : Attendee :=
          { userId := userId
            userName := jsOrS userName userId
            joinTime := JSTime.isoString now
            attendeeInfo := att }
        let s' : Session := { s with attendees := insertL s.attendees (jsKey userId) a }
        (insertL reg (jsKey meetingId) s',
         JoinResult.ok (mkMeetingInfo s') att (userId == s'.creatorId), 1)

/-- Locale mapping of `src/index.js` lines 171-176:
`languageMapping[language] || language || 'es-US'`. -/
def mapLanguage (language : Option String) : String :=
  match language with
  | some "es-ES" => "es-US"
  | some "es" => "es-US"
  | some l => if l = "" then "es-US" else l
  | none => "es-US"

/-- Outcome of `POST /start-transcription`. -/
inductive StartResult where
  | notFound
  | ok (message : String)
  | degraded (message : String)
  | gatewayError (message : String)
deriving DecidableEq

/-- `POST /start-transcription` in `src/index.js` (lines 160-228): on
gateway success mark `transcriptionEnabled = true`,
`transcriptionMethod = 'aws'`; on an authorization-class failure mark
`transcriptionEnabled = true`, `transcriptionMethod = 'alternative'` and
answer 403 with `alternativeAvailable: true` (the distinguishable
degraded outcome); on any other failure rethrow into the 500 handler. -/
def startTranscription (reg : Registry) (meetingId language region : Option String)
    (gw : Except GatewayErr Unit) : Registry × StartResult :=
  if jsFalsyS meetingId then (reg, StartResult.notFound) else
  match lookupL reg (jsKey meetingId) with
  | none => (reg, StartResult.notFound)
  | some s =>
    match gw with
    | Except.ok _ =>
      (insertL reg (jsKey meetingId)
        { s with transcriptionEnabled := true, transcriptionMethod := some TMethod.aws },
       StartResult.ok "Transcripción iniciada correctamente")
    | Except.error e =>
      if isAuthError e then
        (insertL reg (jsKey meetingId)
          { s with transcriptionEnabled := true, transcriptionMethod := some TMethod.alternative },
         StartResult.degraded "Se ha activado la transcripción alternativa debido a problemas de permisos")
      else
        (reg, StartResult.gatewayError ("Error al iniciar transcripción: " ++ e.message))

/-- `POST /start-transcription` in `src/server.js` (lines 178-218): no
authorization-failure branch; any gateway failure is caught by the outer
handler and answered as a hard 500 error with the session untouched; on
success only `transcriptionEnabled` is set (line 210), no
`transcriptionMethod`. -/
def serverStartTranscription (reg : Registry) (meetingId : Option String)
    (gw : Except GatewayErr Unit) : Registry × StartResult :=
  if jsFalsyS meetingId then (reg, StartResult.notFound) else
  match lookupL reg (jsKey meetingId) with
  | none => (reg, StartResult.notFound)
  | some s =>
    match gw with
    | Except.ok _ =>
      (insertL reg (jsKey meetingId) { s with transcriptionEnabled := true },
       StartResult.ok "Transcripción iniciada")
    | Except.error e =>
      (reg, StartResult.gatewayError ("Error al iniciar transcripción: " ++ e.message))

/-- `POST /start-transcription-alternative` (`src/index.js` lines
379-403): unconditionally mark enabled with the 'alternative' method,
no gateway contact. -/
def startTranscriptionAlternative (reg : Registry) (meetingId : Option String) :
    Registry × StartResult :=
  if jsFalsyS meetingId then (reg, StartResult.notFound) else
  match lookupL reg (jsKey meetingId) with
  | none => (reg, StartResult.notFound)
  | some s =>
    (insertL reg (jsKey meetingId)
      { s with transcriptionEnabled := true, transcriptionMethod := some TMethod.alternative },
     StartResult.ok "Transcripción alternativa iniciada")

/-- Outcome of `POST /stop-transcription`. -/
inductive StopResult where
  | notFound
  | ok
  | gatewayError (message : String)
deriving DecidableEq

/-- `POST /stop-transcription` (`src/index.js` lines 231-255): the state
update `transcriptionEnabled = false` (line 247) runs only after the
remote `StopMeetingTranscription` call returns; a thrown gateway error
reaches the catch block with the session untouched. -/
def stopTranscription (reg : Registry) (meetingId : Option String)
    (gw : Except GatewayErr Unit) : Registry × StopResult :=
  if jsFalsyS meetingId then (reg, StopResult.notFound) else
  match lookupL reg (jsKey meetingId) with
  | none => (reg, StopResult.notFound)
  | some s =>
    match gw with
    | Except.error e =>
      (reg, StopResult.gatewayError ("Error al detener transcripción: " ++ e.message))
    | Except.ok _ =>
      (insertL reg (jsKey meetingId) { s with transcriptionEnabled := false },
       StopResult.ok)

/-- Outcome of the delete-meeting endpoints. -/
inductive DeleteResult where
  | notFound
  | ok
deriving DecidableEq

/-- `DELETE /delete-meeting/:meetingId` (`src/index.js` lines 258-291):
the remote `DeleteMeeting` call is attempted inside its own try/catch
whose failure is only logged, then the local entry is deleted and
success is reported.  Returns also the number of remote delete calls
attempted. -/
def deleteMeetingDelete (reg : Registry) (meetingId : Option String)
    (gw : Except GatewayErr Unit) : Registry × DeleteResult × Nat :=
  if jsFalsyS meetingId then (reg, DeleteResult.notFound, 0) else
  match lookupL reg (jsKey meetingId) with
  | none => (reg, DeleteResult.notFound, 0)
  | some _ =>
    match gw with
    | Except.ok _ => (eraseL reg (jsKey meetingId), DeleteResult.ok, 1)
    | Except.error _ => (eraseL reg (jsKey meetingId), DeleteResult.ok, 1)

/-- `POST /delete-meeting` (`src/index.js` lines 294-327): a verbatim
duplicate of the DELETE handler, reading the id from the request body
instead of the path. -/
def deleteMeetingPost (reg : Registry) (meetingId : Option String)
    (gw : Except GatewayErr Unit) : Registry × DeleteResult × Nat :=
  if jsFalsyS meetingId then (reg, DeleteResult.notFound, 0) else
  match lookupL reg (jsKey meetingId) with
  | none => (reg, DeleteResult.notFound, 0)
  | some _ =>
    match gw with
    | Except.ok _ => (eraseL reg (jsKey meetingId), DeleteResult.ok, 1)
    | Except.error _ => (eraseL reg (jsKey meetingId), DeleteResult.ok, 1)

/-- Projection produced per session by `GET /list-meetings`
(`src/index.js` lines 39-54). -/
structure MeetingProjection where
  meetingId : String
  externalMeetingId : String
  creationTime : JSTime
  attendeeCount : Nat
  transcriptionEnabled : Bool
deriving DecidableEq

def projectMeeting (p : String × Session) : MeetingProjection :=
  { meetingId := p.1
    externalMeetingId :=
      match p.2.meeting.externalMeetingId with
      | some e => if e = "" then "Sin ID externo" else e
      | none => "Sin ID externo"
    creationTime := p.2.creationTime
    attendeeCount := p.2.attendees.length
    transcriptionEnabled := p.2.transcriptionEnabled }

def listMeetings (reg : Registry) : List MeetingProjection :=
  reg.map projectMeeting

/-- `EXPIRY_MS` of `src/index.js` line 487. -/
def EXPIRY_MS : Nat := 60 * 60 * 1000

/-- `MEETING_EXPIRY_MINUTES` of `src/index.js` line 31 (declared but
never read by the reaper comparison). -/
def MEETING_EXPIRY_MINUTES : Nat := 60

/-- `cleanupExpiredMeetings` (`src/index.js` lines 485-509): snapshot
the keys and delete every entry with
`now - meetings[meetingId].creationTime > EXPIRY_MS`, attempting a
best-effort remote delete first (its result never affects local
removal).  The subtraction is the JavaScript coercing subtraction
`jsSubTime`. -/
def cleanupExpiredMeetings (now : Nat) (reg : Registry) : Registry :=
  reg.filter (fun p => ! jsGtNum (jsSubTime now p.2.creationTime) EXPIRY_MS)

/-- Number of attendees of a session in the registry, as
`Object.keys(meeting.attendees).length` counts them. -/
def attendeeCountOf (reg : Registry) (mid : String) : Nat :=
  match lookupL reg mid with
  | some s => s.attendees.length
  | none => 0

/-- The transcription mode of the specification's `TranscriptionState`,
as projected from the stored `(transcriptionEnabled,
transcriptionMethod)` pair.  An enabled session whose method field was
never set has no corresponding mode (`none`). -/
inductive Mode where
  | off
  | providerManaged
  | degraded
deriving DecidableEq

def sessionMode (s : Session) : Option Mode :=
  if s.transcriptionEnabled then
    match s.transcriptionMethod with
    | some TMethod.aws => some Mode.providerManaged
    | some TMethod.alternative => some Mode.degraded
    | none => none
  else some Mode.off

/-- Well-formedness of a session's transcription fields: whenever the
enabled flag is set, one of the two start paths has recorded its
method. -/
def TranscriptionWF (s : Session) : Prop :=
  s.transcriptionEnabled = true → s.transcriptionMethod.isSome = true

instance (s : Session) : Decidable (TranscriptionWF s) := by
  unfold TranscriptionWF; exact inferInstance

def RegistryWF (reg : Registry) : Prop :=
  ∀ p ∈ reg, TranscriptionWF p.2

instance (reg : Registry) : Decidable (RegistryWF reg) := by
  unfold RegistryWF; exact List.decidableBAll _ reg

/-- The specification's invariant on a single session: enabled implies
mode ProviderManaged or Degraded, disabled implies mode Off. -/
def ModeOk (s : Session) : Prop :=
  (s.transcriptionEnabled = true →
    sessionMode s = some Mode.providerManaged ∨ sessionMode s = some Mode.degraded) ∧
  (s.transcriptionEnabled = false → sessionMode s = some Mode.off)

/-- One state-mutating request against the `src/index.js` registry,
with the responses of the remote calls it makes supplied as data. -/
inductive Op where
  | createOp (userId : Option String) (now : Nat) (gw : Except GatewayErr MeetingDesc)
  | joinOp (meetingId userId userName : Option String) (now : Nat)
      (gw : Except GatewayErr AttendeeDesc)
  | startOp (meetingId language region : Option String) (gw : Except GatewayErr Unit)
  | startAltOp (meetingId : Option String)
  | stopOp (meetingId : Option String) (gw : Except GatewayErr Unit)
  | deleteOp (meetingId : Option String) (gw : Except GatewayErr Unit)
  | postDeleteOp (meetingId : Option String) (gw : Except GatewayErr Unit)
  | listOp
  | cleanupOp (now : Nat)

/-- Registry after one request. -/
def stepRegistry : Op → Registry → Registry
  | Op.createOp u now gw, reg => (createMeeting reg u now gw).1
  | Op.joinOp mid uid uname now gw, reg => (joinMeeting reg mid uid uname now gw).1
  | Op.startOp mid lang regio gw, reg => (startTranscription reg mid lang regio gw).1
  | Op.startAltOp mid, reg => (startTranscriptionAlternative reg mid).1
  | Op.stopOp mid gw, reg => (stopTranscription reg mid gw).1
  | Op.deleteOp mid gw, reg => (deleteMeetingDelete reg mid gw).1
  | Op.postDeleteOp mid gw, reg => (deleteMeetingPost reg mid gw).1
  | Op.listOp, reg => reg
  | Op.cleanupOp now, reg => cleanupExpiredMeetings now reg

lemma lookupL_insertL_self {α : Type} (l : List (String × α)) (key : String) (v : α) :
    lookupL (insertL l key v) key = some v := by
  induction l with
  | nil => simp [insertL, lookupL]
  | cons p rest ih =>
    obtain ⟨k, w⟩ := p
    by_cases h : k = key
    · simp [insertL, lookupL, h]
    · simp [insertL, lookupL, h, ih]

lemma lookupL_eraseL_self {α : Type} (l : List (String × α)) (key : String) :
    lookupL (eraseL l key) key = none := by
  induction l with
  | nil => simp [eraseL, lookupL]
  | cons p rest ih =>
    obtain ⟨k, w⟩ := p
    by_cases h : k = key
    · simp [eraseL, h, ih]
    · simp [eraseL, lookupL, h, ih]

lemma length_insertL_of_absent {α : Type} (l : List (String × α)) (key : String) (v : α)
    (h : lookupL l key = none) : (insertL l key v).length = l.length + 1 := by
  induction l with
  | nil => simp [insertL]
  | cons p rest ih =>
    obtain ⟨k, w⟩ := p
    by_cases hk : k = key
    · simp [lookupL, hk] at h
    · simp [lookupL, hk] at h
      simp [insertL, hk, ih h]

lemma mem_insertL {α : Type} {l : List (String × α)} {key : String} {v : α}
    {p : String × α} (h : p ∈ insertL l key v) : p ∈ l ∨ p = (key, v) := by
  induction l with
  | nil => simpa [insertL] using h
  | cons q rest ih =>
    obtain ⟨k, w⟩ := q
    by_cases hk : k = key
    · simp [insertL, hk] at h
      rcases h with h | h
      · exact Or.inr (by simp [h])
      · exact Or.inl (by simp [h])
    · simp [insertL, hk] at h
      rcases h with h | h
      · exact Or.inl (by simp [h])
      · rcases ih h with h' | h'
        · exact Or.inl (by simp [h'])
        · exact Or.inr h'

lemma mem_eraseL {α : Type} {l : List (String × α)} {key : String}
    {p : String × α} (h : p ∈ eraseL l key) : p ∈ l := by
  induction l with
  | nil => simpa [eraseL] using h
  | cons q rest ih =>
    obtain ⟨k, w⟩ := q
    by_cases hk : k = key
    · simp [eraseL, hk] at h
      exact List.mem_cons_of_mem _ (ih h)
    · simp [eraseL, hk] at h
      rcases h with h | h
      · exact List.mem_cons.mpr (Or.inl (by simp [h]))
      · exact List.mem_cons_of_mem _ (ih h)

lemma lookupL_mem {α : Type} {l : List (String × α)} {key : String} {v : α}
    (h : lookupL l key = some v) : (key, v) ∈ l := by
  induction l with
  | nil => simp [lookupL] at h
  | cons q rest ih =>
    obtain ⟨k, w⟩ := q
    by_cases hk : k = key
    · simp [lookupL, hk] at h
      subst hk
      simp [h]
    · simp [lookupL, hk] at h
      exact List.mem_cons_of_mem _ (ih h)

lemma registryWF_insert {reg : Registry} {mid : String} {v : Session}
    (h : RegistryWF reg) (hv : TranscriptionWF v) : RegistryWF (insertL reg mid v) := by
  intro p hp
  rcases mem_insertL hp with hp' | hp'
  · exact h p hp'
  · rw [hp']
    exact hv

lemma registryWF_erase {reg : Registry} {mid : String}
    (h : RegistryWF reg) : RegistryWF (eraseL reg mid) :=
  fun p hp => h p (mem_eraseL hp)

lemma registryWF_filter {reg : Registry} {f : String × Session → Bool}
    (h : RegistryWF reg) : RegistryWF (reg.filter f) :=
  fun p hp => h p (List.mem_filter.mp hp).1

lemma modeOk_of_wf {s : Session} (h : TranscriptionWF s) : ModeOk s := by
  constructor
  · intro he
    have hm := h he
    cases hmeth : s.transcriptionMethod with
    | none => simp [hmeth] at hm
    | some m =>
      cases m with
      | aws => exact Or.inl (by simp [sessionMode, he, hmeth])
      | alternative => exact Or.inr (by simp [sessionMode, he, hmeth])
  · intro he
    simp [sessionMode, he]

lemma createMeeting_wf (reg : Registry) (u : Option String) (now : Nat)
    (gw : Except GatewayErr MeetingDesc) (h : RegistryWF reg) :
    RegistryWF (createMeeting reg u now gw).1 := by
  cases gw with
  | error e => exact h
  | ok m =>
    exact registryWF_insert h (by intro hc; simp at hc)

lemma joinMeeting_wf (reg : Registry) (mid uid uname : Option String) (now : Nat)
    (gw : Except GatewayErr AttendeeDesc) (h : RegistryWF reg) :
    RegistryWF (joinMeeting reg mid uid uname now gw).1 := by
  unfold joinMeeting
  split
  · exact h
  · split
    · exact h
    · rename_i s hs
      split
      · exact h
      · cases gw with
        | error e => exact h
        | ok att =>
          have hws : TranscriptionWF s := h _ (lookupL_mem hs)
          exact registryWF_insert h (fun he => hws he)

lemma startTranscription_wf (reg : Registry) (mid lang regio : Option String)
    (gw : Except GatewayErr Unit) (h : RegistryWF reg) :
    RegistryWF (startTranscription reg mid lang regio gw).1 := by
  unfold startTranscription
  split
  · exact h
  · split
    · exact h
    · rename_i s hs
      cases gw with
      | ok u => exact registryWF_insert h (fun _ => rfl)
      | error e =>
        by_cases ha : isAuthError e = true
        · simp only [if_pos ha]
          exact registryWF_insert h (fun _ => rfl)
        · simp only [if_neg ha]
          exact h

lemma startTranscriptionAlternative_wf (reg : Registry) (mid : Option String)
    (h : RegistryWF reg) :
    RegistryWF (startTranscriptionAlternative reg mid).1 := by
  unfold startTranscriptionAlternative
  split
  · exact h
  · split
    · exact h
    · exact registryWF_insert h (fun _ => rfl)

lemma stopTranscription_wf (reg : Registry) (mid : Option String)
    (gw : Except GatewayErr Unit) (h : RegistryWF reg) :
    RegistryWF (stopTranscription reg mid gw).1 := by
  unfold stopTranscription
  split
  · exact h
  · split
    · exact h
    · cases gw with
      | error e => exact h
      | ok u => exact registryWF_insert h (by intro hc; simp at hc)

lemma deleteMeetingDelete_wf (reg : Registry) (mid : Option String)
    (gw : Except GatewayErr Unit) (h : RegistryWF reg) :
    RegistryWF (deleteMeetingDelete reg mid gw).1 := by
  unfold deleteMeetingDelete
  split
  · exact h
  · split
    · exact h
    · cases gw with
      | error e => exact registryWF_erase h
      | ok u => exact registryWF_erase h

lemma deleteMeetingPost_wf (reg : Registry) (mid : Option String)
    (gw : Except GatewayErr Unit) (h : RegistryWF reg) :
    RegistryWF (deleteMeetingPost reg mid gw).1 := by
  unfold deleteMeetingPost
  split
  · exact h
  · split
    · exact h
    · cases gw with
      | error e => exact registryWF_erase h
      | ok u => exact registryWF_erase h

/-- The specification's invariant over the whole registry. -/
def ModeAll (reg : Registry) : Prop :=
  ∀ p ∈ reg, ModeOk p.2

/-- The "after a successful Stop the state is (enabled=false, mode=Off)"
part of the C2 claim, as a predicate over an operation and the registry
it runs on. -/
def StopOffConcl (op : Op) (reg : Registry) : Prop :=
  ∀ mid s, op = Op.stopOp (some mid) (Except.ok ()) → mid ≠ "" →
    lookupL reg mid = some s →
    lookupL (stepRegistry op reg) mid = some { s with transcriptionEnabled := false } ∧
    sessionMode { s with transcriptionEnabled := false } = some Mode.off

/-- Concrete values used by witnesses and counterexamples. -/
def demoMeetingDesc : MeetingDesc :=
  { meetingId := "m-1", externalMeetingId := some "ext-1" }

/-- The session record the create handler stores for `demoMeetingDesc`
at instant 0 with creator "u1". -/
def demoSession : Session :=
  { meetingId := "m-1"
    meeting := demoMeetingDesc
    creationTime := JSTime.isoString 0
    attendees := []
    transcriptionEnabled := false
    transcriptionMethod := none
    creatorId := some "u1" }

/-- `demoSession` after a provider-accepted transcription start. -/
def enabledSession : Session :=
  { demoSession with
    transcriptionEnabled := true
    transcriptionMethod := some TMethod.aws }

def demoAtt : AttendeeDesc := { attendeeId := "att-1", joinToken := "tok-1" }

def demoErr : GatewayErr := { name := "InternalFailure", message := "boom" }

def demoStopOp : Op := Op.stopOp (some "m-1") (Except.ok ())

/-- Claim C1 (code bug): the reaper is supposed to remove a session
once its age exceeds one hour, but `src/index.js` line 490 subtracts the
ISO-string `creationTime` (stored at line 145) from `Date.now()`;
JavaScript coerces the ISO string to NaN, every `NaN > EXPIRY_MS`
comparison is false, and the session created at instant 0 is still in
the registry after a reaper cycle at 61 minutes. -/
theorem c1_reaper_retains_expired_session :
    jsSubTime (61 * 60 * 1000) (JSTime.isoString 0) = JSNum.nan ∧
    lookupL (createMeeting [] (some "u1") 0 (Except.ok demoMeetingDesc)).1 "m-1"
      = some demoSession ∧
    cleanupExpiredMeetings (59 * 60 * 1000)
        (createMeeting [] (some "u1") 0 (Except.ok demoMeetingDesc)).1
      = (createMeeting [] (some "u1") 0 (Except.ok demoMeetingDesc)).1 ∧
    cleanupExpiredMeetings (61 * 60 * 1000)
        (createMeeting [] (some "u1") 0 (Except.ok demoMeetingDesc)).1
      = (createMeeting [] (some "u1") 0 (Except.ok demoMeetingDesc)).1 ∧
    lookupL (cleanupExpiredMeetings (61 * 60 * 1000)
        (createMeeting [] (some "u1") 0 (Except.ok demoMeetingDesc)).1) "m-1"
      = some demoSession := by
  decide

/-- Claim C2: every registry operation preserves the TranscriptionState
invariant (enabled implies mode ProviderManaged or Degraded, disabled
implies mode Off, as projected from the stored enabled/method fields),
and after a successful Stop the session's state is enabled=false, mode
Off. -/
theorem c2_transcription_invariant (op : Op) (reg : Registry) (h : RegistryWF reg) :
    RegistryWF (stepRegistry op reg) ∧ ModeAll (stepRegistry op reg) ∧ StopOffConcl op reg := by
  have hwf : RegistryWF (stepRegistry op reg) := by
    cases op with
    | createOp u now gw => exact createMeeting_wf reg u now gw h
    | joinOp mid uid uname now gw => exact joinMeeting_wf reg mid uid uname now gw h
    | startOp mid lang regio gw => exact startTranscription_wf reg mid lang regio gw h
    | startAltOp mid => exact startTranscriptionAlternative_wf reg mid h
    | stopOp mid gw => exact stopTranscription_wf reg mid gw h
    | deleteOp mid gw => exact deleteMeetingDelete_wf reg mid gw h
    | postDeleteOp mid gw => exact deleteMeetingPost_wf reg mid gw h
    | listOp => exact h
    | cleanupOp now => exact registryWF_filter h
  refine ⟨hwf, fun p hp => modeOk_of_wf (hwf p hp), ?_⟩
  intro mid s hop hne hlook
  subst hop
  constructor
  · simp [stepRegistry, stopTranscription, jsFalsyS, hne, jsKey, hlook, lookupL_insertL_self]
  · simp [sessionMode]

theorem c2_transcription_invariant_witness :
    RegistryWF [("m-1", enabledSession)] ∧
    (RegistryWF (stepRegistry demoStopOp [("m-1", enabledSession)]) ∧
     ModeAll (stepRegistry demoStopOp [("m-1", enabledSession)]) ∧
     StopOffConcl demoStopOp [("m-1", enabledSession)]) :=
  ⟨by decide, c2_transcription_invariant demoStopOp [("m-1", enabledSession)] (by decide)⟩

/-- Claim C8: create is all-or-nothing — on gateway failure no local
record is made and a GatewayError is reported; on success the session is
keyed by the gateway-assigned id with empty attendees and transcription
disabled, so its list-meetings projection shows attendeeCount 0 and
transcriptionEnabled false. -/
theorem c8_create_all_or_nothing (reg : Registry) (u : Option String) (now : Nat)
    (e : GatewayErr) (m : MeetingDesc) :
    createMeeting reg u now (Except.error e)
      = (reg, CreateResult.gatewayError ("Error al crear reunión: " ++ e.message)) ∧
    (createMeeting reg u now (Except.ok m)).2 = CreateResult.ok m.meetingId ∧
    ∃ s, lookupL (createMeeting reg u now (Except.ok m)).1 m.meetingId = some s ∧
      (projectMeeting (m.meetingId, s)).attendeeCount = 0 ∧
      (projectMeeting (m.meetingId, s)).transcriptionEnabled = false := by
  exact ⟨rfl, rfl, _, lookupL_insertL_self reg m.meetingId _, rfl, rfl⟩

/-- Claim C9: the DELETE and POST delete-meeting handlers are
behaviorally equivalent — same not-found condition, same best-effort
remote delete, same unconditional local removal, same result. -/
theorem c9_delete_handlers_equivalent (reg : Registry) (meetingId : Option String)
    (gw : Except GatewayErr Unit) :
    deleteMeetingDelete reg meetingId gw = deleteMeetingPost reg meetingId gw := rfl

/-- Claim C3: join is idempotent per userId — two joins with the same
userId return the same response, the attendee count grows by exactly 1
across both calls, and the remote CreateAttendee capability is invoked
exactly once in total (the second call answers from the stored entry). -/
theorem c3_join_idempotent (reg : Registry) (mid : String) (uid uname : Option String)
    (now1 now2 : Nat) (att : AttendeeDesc) (gw2 : Except GatewayErr AttendeeDesc)
    (s : Session) (hmid : mid ≠ "") (hs : lookupL reg mid = some s)
    (habs : lookupL s.attendees (jsKey uid) = none) :
    (joinMeeting reg (some mid) uid uname now1 (Except.ok att)).2.1
      = (joinMeeting (joinMeeting reg (some mid) uid uname now1 (Except.ok att)).1
          (some mid) uid uname now2 gw2).2.1 ∧
    attendeeCountOf (joinMeeting (joinMeeting reg (some mid) uid uname now1 (Except.ok att)).1
        (some mid) uid uname now2 gw2).1 mid
      = attendeeCountOf reg mid + 1 ∧
    (joinMeeting reg (some mid) uid uname now1 (Except.ok att)).2.2
      + (joinMeeting (joinMeeting reg (some mid) uid uname now1 (Except.ok att)).1
          (some mid) uid uname now2 gw2).2.2 = 1 := by
  have hk : jsKey (some mid) = mid := rfl
  set a : Attendee :=
    { userId := uid, userName := jsOrS uname uid,
      joinTime := JSTime.isoString now1, attendeeInfo := att } with ha
  set s' : Session := { s with attendees := insertL s.attendees (jsKey uid) a } with hs'
  have h1 : joinMeeting reg (some mid) uid uname now1 (Except.ok att)
      = (insertL reg mid s', JoinResult.ok (mkMeetingInfo s') att (uid == s.creatorId), 1) := by
    simp [joinMeeting, jsFalsyS, hmid, hk, hs, habs, hs', ha]
  have hlook2 : lookupL s'.attendees (jsKey uid) = some a :=
    lookupL_insertL_self s.attendees (jsKey uid) a
  have h2 : joinMeeting (insertL reg mid s') (some mid) uid uname now2 gw2
      = (insertL reg mid s',
         JoinResult.ok (mkMeetingInfo s') a.attendeeInfo (uid == s'.creatorId), 0) := by
    simp [joinMeeting, jsFalsyS, hmid, hk, lookupL_insertL_self, hlook2]
  refine ⟨?_, ?_, ?_⟩
  · rw [h1]
    simp [h2, ha, hs']
  · rw [h1]
    simp only [h2]
    simp [attendeeCountOf, lookupL_insertL_self, hs', length_insertL_of_absent _ _ _ habs, hs]
  · rw [h1]
    simp [h2]

theorem c3_join_idempotent_witness :
    ("m-1" : String) ≠ "" ∧
    lookupL [("m-1", demoSession)] "m-1" = some demoSession ∧
    lookupL demoSession.attendees (jsKey (some "u1")) = none ∧
    ((joinMeeting [("m-1", demoSession)] (some "m-1") (some "u1") (some "User One") 3
        (Except.ok demoAtt)).2.1
      = (joinMeeting (joinMeeting [("m-1", demoSession)] (some "m-1") (some "u1")
            (some "User One") 3 (Except.ok demoAtt)).1
          (some "m-1") (some "u1") (some "User One") 4 (Except.ok demoAtt)).2.1 ∧
    attendeeCountOf (joinMeeting (joinMeeting [("m-1", demoSession)] (some "m-1") (some "u1")
          (some "User One") 3 (Except.ok demoAtt)).1
        (some "m-1") (some "u1") (some "User One") 4 (Except.ok demoAtt)).1 "m-1"
      = attendeeCountOf [("m-1", demoSession)] "m-1" + 1 ∧
    (joinMeeting [("m-1", demoSession)] (some "m-1") (some "u1") (some "User One") 3
        (Except.ok demoAtt)).2.2
      + (joinMeeting (joinMeeting [("m-1", demoSession)] (some "m-1") (some "u1")
            (some "User One") 3 (Except.ok demoAtt)).1
          (some "m-1") (some "u1") (some "User One") 4 (Except.ok demoAtt)).2.2 = 1) :=
  ⟨by decide, by decide, by decide,
   c3_join_idempotent [("m-1", demoSession)] "m-1" (some "u1") (some "User One") 3 4
     demoAtt (Except.ok demoAtt) demoSession (by decide) (by decide) (by decide)⟩

/-- An authorization-class gateway error as detected by
`src/index.js` lines 204-206. -/
def demoAuthErr : GatewayErr :=
  { name := "AccessDeniedException", message := "User is not authorized" }

/-- A session after the degraded transition of `src/index.js` lines
211-212. -/
def degradedOf (s : Session) : Session :=
  { s with transcriptionEnabled := true, transcriptionMethod := some TMethod.alternative }

/-- Claim C4 (amended): in the `src/index.js` start-transcription
handler, an authorization-class gateway failure transitions the session
to Degraded with enabled true and answers with the distinguishable
degraded outcome (the 403 response carrying `alternativeAvailable`)
instead of the hard 500 error. -/
theorem c4_index_auth_failure_degraded (reg : Registry) (mid : String)
    (lang regio : Option String) (e : GatewayErr) (s : Session)
    (hmid : mid ≠ "") (hs : lookupL reg mid = some s) (hauth : isAuthError e = true) :
    startTranscription reg (some mid) lang regio (Except.error e)
      = (insertL reg mid (degradedOf s),
         StartResult.degraded
           "Se ha activado la transcripción alternativa debido a problemas de permisos") ∧
    lookupL (startTranscription reg (some mid) lang regio (Except.error e)).1 mid
      = some (degradedOf s) ∧
    (degradedOf s).transcriptionEnabled = true ∧
    sessionMode (degradedOf s) = some Mode.degraded := by
  have h1 : startTranscription reg (some mid) lang regio (Except.error e)
      = (insertL reg mid (degradedOf s),
         StartResult.degraded
           "Se ha activado la transcripción alternativa debido a problemas de permisos") := by
    simp [startTranscription, jsFalsyS, hmid, jsKey, hs, hauth, degradedOf]
  refine ⟨h1, ?_, rfl, by simp [sessionMode, degradedOf]⟩
  rw [h1]
  exact lookupL_insertL_self reg mid _

theorem c4_index_auth_failure_degraded_witness :
    ("m-1" : String) ≠ "" ∧
    lookupL [("m-1", demoSession)] "m-1" = some demoSession ∧
    isAuthError demoAuthErr = true ∧
    (startTranscription [("m-1", demoSession)] (some "m-1") none none
        (Except.error demoAuthErr)
      = (insertL [("m-1", demoSession)] "m-1" (degradedOf demoSession),
         StartResult.degraded
           "Se ha activado la transcripción alternativa debido a problemas de permisos") ∧
    lookupL (startTranscription [("m-1", demoSession)] (some "m-1") none none
        (Except.error demoAuthErr)).1 "m-1"
      = some (degradedOf demoSession) ∧
    (degradedOf demoSession).transcriptionEnabled = true ∧
    sessionMode (degradedOf demoSession) = some Mode.degraded) :=
  ⟨by decide, by decide, by decide,
   c4_index_auth_failure_degraded [("m-1", demoSession)] "m-1" none none demoAuthErr
     demoSession (by decide) (by decide) (by decide)⟩

/-- Claim C4 as stated is false of the program: the `src/server.js`
start-transcription handler (cited by the claim) has no degraded branch;
on the same authorization-class failure it leaves the session unchanged
(enabled stays false, mode Off) and reports the hard 500 gateway error. -/
theorem c4_server_auth_failure_hard_error :
    isAuthError { name := "AccessDeniedException", message := "Access Denied" } = true ∧
    serverStartTranscription [("m-1", demoSession)] (some "m-1")
        (Except.error { name := "AccessDeniedException", message := "Access Denied" })
      = ([("m-1", demoSession)],
         StartResult.gatewayError "Error al iniciar transcripción: Access Denied") ∧
    demoSession.transcriptionEnabled = false ∧
    sessionMode demoSession = some Mode.off := by decide

/-- Claim C5: a failed remote stop leaves the local transcription state
unchanged (enabled stays true) and reports a GatewayError; the state is
set to disabled only when the remote call succeeds. -/
theorem c5_stop_failure_preserves_state (reg : Registry) (mid : String) (s : Session)
    (e : GatewayErr) (hmid : mid ≠ "") (hs : lookupL reg mid = some s)
    (hen : s.transcriptionEnabled = true) :
    stopTranscription reg (some mid) (Except.error e)
      = (reg, StopResult.gatewayError ("Error al detener transcripción: " ++ e.message)) ∧
    lookupL (stopTranscription reg (some mid) (Except.error e)).1 mid = some s ∧
    s.transcriptionEnabled = true ∧
    stopTranscription reg (some mid) (Except.ok ())
      = (insertL reg mid { s with transcriptionEnabled := false }, StopResult.ok) ∧
    lookupL (stopTranscription reg (some mid) (Except.ok ())).1 mid
      = some { s with transcriptionEnabled := false } := by
  have h1 : stopTranscription reg (some mid) (Except.error e)
      = (reg, StopResult.gatewayError ("Error al detener transcripción: " ++ e.message)) := by
    simp [stopTranscription, jsFalsyS, hmid, jsKey, hs]
  have h2 : stopTranscription reg (some mid) (Except.ok ())
      = (insertL reg mid { s with transcriptionEnabled := false }, StopResult.ok) := by
    simp [stopTranscription, jsFalsyS, hmid, jsKey, hs]
  refine ⟨h1, ?_, hen, h2, ?_⟩
  · rw [h1]
    exact hs
  · rw [h2]
    exact lookupL_insertL_self reg mid _

theorem c5_stop_failure_preserves_state_witness :
    ("m-1" : String) ≠ "" ∧
    lookupL [("m-1", enabledSession)] "m-1" = some enabledSession ∧
    enabledSession.transcriptionEnabled = true ∧
    (stopTranscription [("m-1", enabledSession)] (some "m-1") (Except.error demoErr)
      = ([("m-1", enabledSession)],
         StopResult.gatewayError ("Error al detener transcripción: " ++ demoErr.message)) ∧
    lookupL (stopTranscription [("m-1", enabledSession)] (some "m-1")
        (Except.error demoErr)).1 "m-1" = some enabledSession ∧
    enabledSession.transcriptionEnabled = true ∧
    stopTranscription [("m-1", enabledSession)] (some "m-1") (Except.ok ())
      = (insertL [("m-1", enabledSession)] "m-1"
          { enabledSession with transcriptionEnabled := false }, StopResult.ok) ∧
    lookupL (stopTranscription [("m-1", enabledSession)] (some "m-1") (Except.ok ())).1 "m-1"
      = some { enabledSession with transcriptionEnabled := false }) :=
  ⟨by decide, by decide, by decide,
   c5_stop_failure_preserves_state [("m-1", enabledSession)] "m-1" enabledSession demoErr
     (by decide) (by decide) (by decide)⟩

/-- Claim C6: removing a present session attempts the remote delete
once, swallows its outcome, unconditionally erases the local entry and
reports success; afterwards a join on that id fails NotFound without
contacting the gateway. -/
theorem c6_remove_terminal (reg : Registry) (mid : String) (s : Session)
    (gw : Except GatewayErr Unit) (hmid : mid ≠ "") (hs : lookupL reg mid = some s) :
    deleteMeetingDelete reg (some mid) gw = (eraseL reg mid, DeleteResult.ok, 1) ∧
    lookupL (deleteMeetingDelete reg (some mid) gw).1 mid = none ∧
    ∀ uid uname : Option String, ∀ now : Nat, ∀ gw2 : Except GatewayErr AttendeeDesc,
      joinMeeting (deleteMeetingDelete reg (some mid) gw).1 (some mid) uid uname now gw2
        = (eraseL reg mid, JoinResult.notFound, 0) := by
  have h1 : deleteMeetingDelete reg (some mid) gw = (eraseL reg mid, DeleteResult.ok, 1) := by
    cases gw <;> simp [deleteMeetingDelete, jsFalsyS, hmid, jsKey, hs]
  refine ⟨h1, ?_, ?_⟩
  · rw [h1]
    exact lookupL_eraseL_self reg mid
  · intro uid uname now gw2
    rw [h1]
    simp [joinMeeting, jsFalsyS, hmid, jsKey, lookupL_eraseL_self]

theorem c6_remove_terminal_witness :
    ("m-1" : String) ≠ "" ∧
    lookupL [("m-1", demoSession)] "m-1" = some demoSession ∧
    (deleteMeetingDelete [("m-1", demoSession)] (some "m-1") (Except.error demoErr)
      = (eraseL [("m-1", demoSession)] "m-1", DeleteResult.ok, 1) ∧
    lookupL (deleteMeetingDelete [("m-1", demoSession)] (some "m-1")
        (Except.error demoErr)).1 "m-1" = none ∧
    ∀ uid uname : Option String, ∀ now : Nat, ∀ gw2 : Except GatewayErr AttendeeDesc,
      joinMeeting (deleteMeetingDelete [("m-1", demoSession)] (some "m-1")
          (Except.error demoErr)).1 (some "m-1") uid uname now gw2
        = (eraseL [("m-1", demoSession)] "m-1", JoinResult.notFound, 0)) :=
  ⟨by decide, by decide,
   c6_remove_terminal [("m-1", demoSession)] "m-1" demoSession (Except.error demoErr)
     (by decide) (by decide)⟩

/-- Claim C7: when the remote CreateAttendee call fails for a userId not
yet among the session's attendees, the handler reports a GatewayError
and leaves the registry (in particular the attendee count) unchanged. -/
theorem c7_join_gateway_failure_atomic (reg : Registry) (mid : String) (s : Session)
    (uid uname : Option String) (now : Nat) (e : GatewayErr)
    (hmid : mid ≠ "") (hs : lookupL reg mid = some s)
    (habs : lookupL s.attendees (jsKey uid) = none) :
    joinMeeting reg (some mid) uid uname now (Except.error e)
      = (reg, JoinResult.gatewayError ("Error al unirse a la reunión: " ++ e.message), 1) ∧
    attendeeCountOf (joinMeeting reg (some mid) uid uname now (Except.error e)).1 mid
      = attendeeCountOf reg mid := by
  have hk : jsKey (some mid) = mid := rfl
  have h1 : joinMeeting reg (some mid) uid uname now (Except.error e)
      = (reg, JoinResult.gatewayError ("Error al unirse a la reunión: " ++ e.message), 1) := by
    simp [joinMeeting, jsFalsyS, hmid, hk, hs, habs]
  exact ⟨h1, by rw [h1]⟩

theorem c7_join_gateway_failure_atomic_witness :
    ("m-1" : String) ≠ "" ∧
    lookupL [("m-1", demoSession)] "m-1" = some demoSession ∧
    lookupL demoSession.attendees (jsKey (some "u9")) = none ∧
    (joinMeeting [("m-1", demoSession)] (some "m-1") (some "u9") none 5 (Except.error demoErr)
      = ([("m-1", demoSession)],
         JoinResult.gatewayError ("Error al unirse a la reunión: " ++ demoErr.message), 1) ∧
    attendeeCountOf (joinMeeting [("m-1", demoSession)] (some "m-1") (some "u9") none 5
        (Except.error demoErr)).1 "m-1"
      = attendeeCountOf [("m-1", demoSession)] "m-1") :=
  ⟨by decide, by decide, by decide,
   c7_join_gateway_failure_atomic [("m-1", demoSession)] "m-1" demoSession (some "u9") none 5
     demoErr (by decide) (by decide) (by decide)⟩

/-- Claim C10: creatorId is stored unvalidated, so a session created
with no userId in the body has creatorId undefined, and a join that also
omits userId reports isCreator true, because the flag is the direct
strict equality of the joining userId with the stored creatorId. -/
theorem c10_undefined_creator_iscreator (m : MeetingDesc) (att : AttendeeDesc)
    (now1 now2 : Nat) (h : m.meetingId ≠ "") :
    (joinMeeting (createMeeting [] none now1 (Except.ok m)).1 (some m.meetingId)
        none none now2 (Except.ok att)).2.1
      = JoinResult.ok
          { meeting := m, meetingId := m.meetingId,
            creationTime := JSTime.isoString now1, transcriptionEnabled := false }
          att true := by
  simp [createMeeting, insertL, joinMeeting, jsFalsyS, h, jsKey, lookupL, mkMeetingInfo, jsOrS]

theorem c10_undefined_creator_iscreator_witness :
    demoMeetingDesc.meetingId ≠ "" ∧
    (joinMeeting (createMeeting [] none 0 (Except.ok demoMeetingDesc)).1
        (some demoMeetingDesc.meetingId) none none 1 (Except.ok demoAtt)).2.1
      = JoinResult.ok
          { meeting := demoMeetingDesc, meetingId := demoMeetingDesc.meetingId,
            creationTime := JSTime.isoString 0, transcriptionEnabled := false }
          demoAtt true :=
  ⟨by decide, c10_undefined_creator_iscreator demoMeetingDesc demoAtt 0 1 (by decide)⟩

end ChimeBackend
